import Mathlib

/-!
Verification of the content-generation pipeline's deterministic fallback
("heuristic") engine: the Analyzer (`content_strategy_agent.py`), the
Scriptwriter (`content_scriptwriter_agent.py`) and the VisualPlanner
(`visual_content_planner_agent.py`).

The Python code is shallowly embedded:
* Python strings are `String` (a list of unicode code points, as in Python);
  `str.split`, `in`, `str.replace`, slicing, `str.lower` and decimal
  formatting are implemented below on `List Char`, exactly following
  Python's semantics for a non-empty separator.
* Python's process-wide pseudorandom source is modelled by `Rnd`, a stream
  of pre-drawn natural numbers with a cursor; `random.choice` picks the
  element indexed by the next draw modulo the list length, `random.sample`
  picks `k` pairwise distinct positions one after the other.  Quantifying
  over all streams covers every behaviour the real generator can produce.
* Code that can raise (`list[0]` on an empty list, `dict['type']` on a
  missing key) is embedded in `Option`, `none` standing for the raised
  exception.  Code with no failure point keeps a plain return type.
* In the heuristic path the external GPT call returns `None` (every call
  site catches its own errors and falls back); the embedding therefore
  models the template branch that runs after the failed call.
-/

/-! ### Python string primitives -/

/-- Decimal digit character, as produced by Python's `str(int)`. -/
def digitChar : Nat → Char
  | 0 => '0' | 1 => '1' | 2 => '2' | 3 => '3' | 4 => '4'
  | 5 => '5' | 6 => '6' | 7 => '7' | 8 => '8' | _ => '9'

/-- Decimal digits of `n`, most significant first (fuel-structured so the
kernel can evaluate it; `natDigits` supplies enough fuel). -/
def natDigitsAux : Nat → Nat → List Char
  | 0, n => [digitChar n]
  | f + 1, n => if n < 10 then [digitChar n] else natDigitsAux f (n / 10) ++ [digitChar (n % 10)]

def natDigits (n : Nat) : List Char := natDigitsAux n n

/-- Python's `str(n)` for a natural number. -/
def natToDec (n : Nat) : String := String.mk (natDigits n)

/-- `a.isPrefixOf b` on character lists (Boolean, for `str.startswith` and
as the core of substring containment). -/
def isPrefixL : List Char → List Char → Bool
  | [], _ => true
  | _ :: _, [] => false
  | a :: as, b :: bs => a == b && isPrefixL as bs

/-- Python's `sub in s` (substring containment) on character lists. -/
def containsSub (sub : List Char) : List Char → Bool
  | [] => isPrefixL sub []
  | c :: rest => isPrefixL sub (c :: rest) || containsSub sub rest

/-- Python's `sub in s` on strings. -/
def pyIn (sub s : String) : Bool := containsSub sub.toList s.toList

/-- Python's `s.split(sep)` for a non-empty separator, on character lists,
fuel-structured (the list length is enough fuel).  With an empty separator
Python raises; no call site of the repository passes one (the guard keeps
the function total). -/
def splitOnAux (sep : List Char) : Nat → List Char → List (List Char)
  | _, [] => [[]]
  | 0, l => [l]
  | f + 1, c :: rest =>
    if isPrefixL sep (c :: rest) && !sep.isEmpty then
      [] :: splitOnAux sep f (List.drop sep.length (c :: rest))
    else
      match splitOnAux sep f rest with
      | [] => [[c]]
      | h :: t => (c :: h) :: t

def splitOnL (sep l : List Char) : List (List Char) := splitOnAux sep l.length l

/-- Python's `s.split(sep)` on strings. -/
def splitOnS (sep s : String) : List String :=
  (splitOnL sep.toList s.toList).map String.mk

/-- The whitespace class of Python's no-argument `str.split` (ASCII part). -/
def isWS (c : Char) : Bool :=
  c == ' ' || c == '\t' || c == '\n' || c == '\x0d' || c == '\x0b' || c == '\x0c'

/-- Python's no-argument `s.split()`: maximal runs of non-whitespace,
empty pieces dropped.  Fuel-structured; `wordsL` supplies the fuel. -/
def wordsAux : Nat → List Char → List (List Char)
  | _, [] => []
  | 0, l => [l]
  | f + 1, c :: rest =>
    if isWS c then wordsAux f rest
    else (c :: rest.takeWhile (fun x => !isWS x)) :: wordsAux f (rest.dropWhile (fun x => !isWS x))

def wordsL (l : List Char) : List (List Char) := wordsAux l.length l

/-- Python's `s.split()` on strings. -/
def pyWords (s : String) : List String := (wordsL s.toList).map String.mk

/-- Python's `s.lower()` (ASCII case folding, which covers every string the
repository lowers). -/
def pyLower (s : String) : String := String.mk (s.toList.map Char.toLower)

/-- Python's `s.capitalize()`: first character upper-cased, the rest
lower-cased. -/
def pyCapitalize (s : String) : String :=
  match s.toList with
  | [] => ""
  | c :: rest => String.mk (Char.toUpper c :: rest.map Char.toLower)

/-- Python's slice `s[:n]`. -/
def pyTake (s : String) (n : Nat) : String := String.mk (s.toList.take n)

/-- Python's `s.replace(old, new)` for a non-empty `old`:
`new.join(s.split(old))`. -/
def pyReplace (s old new : String) : String :=
  String.intercalate new (splitOnS old s)

/-- Python's `a or d` for a string `a` (an empty string falls back to the
default). -/
def pyOrS (s d : String) : String := if s == "" then d else s

/-- Python's `a or d` for an optional string (both `None` and `""` fall
back to the default). -/
def pyOrOpt (o : Option String) (d : String) : String :=
  match o with
  | none => d
  | some s => if s == "" then d else s

/-- First word of a string: Python's `s.split()[0]`, `none` when the access
would raise `IndexError`. -/
def firstWord (s : String) : Option String :=
  match wordsL s.toList with
  | [] => none
  | w :: _ => some (String.mk w)

/-- The `for (key, value) in table: if key in probe: ... break` pattern the
agents use for every keyword-routed lookup: the first entry whose key is a
substring of the probe. -/
def firstKeyMatch {α : Type} (table : List (String × α)) (probe : String) :
    Option (String × α) :=
  match table with
  | [] => none
  | e :: rest => if pyIn e.1 probe then some e else firstKeyMatch rest probe

/-! ### The pseudorandom source -/

/-- Python's process-wide `random` generator, modelled as a stream of
pre-drawn naturals and a cursor.  Quantifying theorems over every `Rnd`
covers every behaviour of the real generator. -/
structure Rnd where
  stream : Nat → Nat
  pos : Nat

def Rnd.next (r : Rnd) : Nat × Rnd := (r.stream r.pos, ⟨r.stream, r.pos + 1⟩)

/-- A concrete stream (all draws 0) used to evaluate witnesses. -/
def rTriv : Rnd := ⟨fun _ => 0, 0⟩

/-- `random.choice(l)`: the element indexed by the next draw modulo the
length.  Every call site of the repository guards against the empty list,
on which Python would raise; the default is never reached there. -/
def pyChoice {α : Type} (r : Rnd) (l : List α) (dflt : α) : α × Rnd :=
  let n := r.next
  (l.getD (n.1 % l.length) dflt, n.2)

/-- `random.sample(l, k)`: `k` pairwise distinct positions drawn one after
the other (every `k`-permutation of `l` is reachable for a suitable
stream).  Call sites always pass `k ≤ l.length`. -/
def pySample {α : Type} : List α → Nat → Rnd → List α × Rnd
  | _, 0, r => ([], r)
  | [], _ + 1, r => ([], r)
  | x :: xs, k + 1, r =>
    let n := r.next
    let i := n.1 % (x :: xs).length
    let rest := pySample ((x :: xs).eraseIdx i) k n.2
    ((x :: xs).getD i x :: rest.1, rest.2)

/-! ### Lemmas about the primitives -/

theorem pyChoice_mem {α : Type} (r : Rnd) (l : List α) (dflt : α) (h : l ≠ []) :
    (pyChoice r l dflt).1 ∈ l := by
  have hlen : 0 < l.length := List.length_pos.mpr h
  have hi : (r.next.1 % l.length) < l.length := Nat.mod_lt _ hlen
  simp only [pyChoice]
  rw [List.getD_eq_getElem _ _ hi]
  exact List.getElem_mem hi

theorem pySample_length {α : Type} (l : List α) (k : Nat) (r : Rnd) :
    ((pySample l k r).1).length = min k l.length := by
  induction k generalizing l r with
  | zero => cases l <;> simp [pySample]
  | succ k ih =>
    match l with
    | [] => simp [pySample]
    | x :: xs =>
      simp only [pySample, List.length_cons]
      rw [ih]
      have hi : (r.next.1 % (x :: xs).length) < (x :: xs).length :=
        Nat.mod_lt _ (by simp)
      rw [List.length_eraseIdx]
      simp only [List.length_cons] at hi ⊢
      rw [if_pos hi]
      omega

theorem splitOnAux_no_match (sep : List Char) :
    ∀ (f : Nat) (l : List Char), containsSub sep l = false → splitOnAux sep f l = [l] := by
  intro f
  induction f with
  | zero => intro l _; cases l <;> rfl
  | succ f ih =>
    intro l hl
    cases l with
    | nil => rfl
    | cons c rest =>
      rw [containsSub] at hl
      have h1 : isPrefixL sep (c :: rest) = false := by
        cases h : isPrefixL sep (c :: rest) <;> simp [h] at hl ⊢
      have h2 : containsSub sep rest = false := by
        cases h : containsSub sep rest <;> simp [h] at hl ⊢
      rw [splitOnAux, if_neg (by simp [h1]), ih rest h2]

/-- `s.split(sep)` is `[s]` when the separator is not a substring of `s`. -/
theorem splitOnL_no_match (sep l : List Char)
    (h : containsSub sep l = false) : splitOnL sep l = [l] :=
  splitOnAux_no_match sep l.length l h

theorem digitChar_ne_minus (n : Nat) : digitChar n ≠ '-' := by
  unfold digitChar
  split <;> decide

theorem natDigitsAux_ne_minus (f n : Nat) : ∀ c ∈ natDigitsAux f n, c ≠ '-' := by
  induction f generalizing n with
  | zero =>
    intro c hc
    simp only [natDigitsAux, List.mem_singleton] at hc
    exact hc ▸ digitChar_ne_minus n
  | succ f ih =>
    intro c hc
    rw [natDigitsAux] at hc
    split at hc
    · simp only [List.mem_singleton] at hc
      exact hc ▸ digitChar_ne_minus n
    · rw [List.mem_append] at hc
      rcases hc with hc | hc
      · exact ih (n / 10) c hc
      · simp only [List.mem_singleton] at hc
        exact hc ▸ digitChar_ne_minus (n % 10)

theorem natToDec_ne_minus (n : Nat) : ∀ c ∈ (natToDec n).data, c ≠ '-' :=
  natDigitsAux_ne_minus n n

/-! ### Timestamp formatting ("M:SS") and parsing -/

/-- Python's `f"{m:02d}"` for the second field (zero-padded to width 2). -/
def pad2 (m : Nat) : String := if m < 10 then "0" ++ natToDec m else natToDec m

/-- The planner's `f"{s//60}:{s%60:02d}"` time format. -/
def fmtTime (s : Nat) : String := natToDec (s / 60) ++ ":" ++ pad2 (s % 60)

/-- The start of a timestamp string: the characters before the first `-`. -/
def tsStart (s : String) : String := String.mk (s.data.takeWhile (fun c => c != '-'))

/-- The end of a timestamp string: the characters after the last `-`. -/
def tsEnd (s : String) : String :=
  String.mk ((s.data.reverse.takeWhile (fun c => c != '-')).reverse)

theorem fmtTime_ne_minus (t : Nat) : ∀ c ∈ (fmtTime t).data, c ≠ '-' := by
  intro c hc
  simp only [fmtTime, pad2] at hc
  rw [String.data_append, String.data_append] at hc
  rw [List.mem_append, List.mem_append] at hc
  rcases hc with (hc | hc) | hc
  · exact natToDec_ne_minus _ c hc
  · simp only [List.mem_singleton, show (":").data = [':'] from rfl] at hc
    subst hc; decide
  · split at hc
    · rw [String.data_append, List.mem_append] at hc
      rcases hc with hc | hc
      · simp only [show ("0").data = ['0'] from rfl, List.mem_singleton] at hc
        subst hc; decide
      · exact natToDec_ne_minus _ c hc
    · exact natToDec_ne_minus _ c hc

theorem takeWhile_append_minus (l r : List Char) (h : ∀ c ∈ l, c ≠ '-') :
    (l ++ '-' :: r).takeWhile (fun c => c != '-') = l := by
  induction l with
  | nil => simp [List.takeWhile]
  | cons a as ih =>
    have ha : (a != '-') = true := bne_iff_ne.mpr (h a (List.mem_cons_self a as))
    simp only [List.cons_append, List.takeWhile_cons, ha, if_true]
    rw [ih (fun c hc => h c (List.mem_cons_of_mem a hc))]

/-- Splitting `a ++ "-" ++ b` back at the dash when neither half holds a
dash. -/
theorem tsStart_append (a b : String) (ha : ∀ c ∈ a.data, c ≠ '-') :
    tsStart (a ++ "-" ++ b) = a := by
  have hdata : (a ++ "-" ++ b).data = a.data ++ '-' :: b.data := by
    rw [String.data_append, String.data_append]
    simp [show ("-").data = ['-'] from rfl]
  rw [tsStart, hdata, takeWhile_append_minus a.data b.data ha]

theorem tsEnd_append (a b : String) (hb : ∀ c ∈ b.data, c ≠ '-') :
    tsEnd (a ++ "-" ++ b) = b := by
  have hdata : (a ++ "-" ++ b).data = a.data ++ '-' :: b.data := by
    rw [String.data_append, String.data_append]
    simp [show ("-").data = ['-'] from rfl]
  have hrev : (a.data ++ '-' :: b.data).reverse = b.data.reverse ++ '-' :: a.data.reverse := by
    rw [List.reverse_append, List.reverse_cons]
    simp
  rw [tsEnd, hdata, hrev,
    takeWhile_append_minus b.data.reverse a.data.reverse
      (fun c hc => hb c (List.mem_reverse.mp hc)),
    List.reverse_reverse]

/-! ### Number formatting for the summary (Python's `f"{x:,.0f}"`) -/

/-- Comma-grouping of a reversed digit list in blocks of three
(fuel-structured; the digit count is enough fuel). -/
def commaAux : Nat → List Char → List Char
  | _, [] => []
  | 0, l => l
  | f + 1, ds => if ds.length ≤ 3 then ds else ds.take 3 ++ ',' :: commaAux f (ds.drop 3)

/-- Decimal representation of `n` with thousands separators. -/
def commaGroup (n : Nat) : String :=
  String.mk ((commaAux (natDigits n).length (natDigits n).reverse).reverse)

/-- Round-half-even to an integer, the rule behind Python's `"{:,.0f}"`
format (the float arithmetic of the source is modelled on exact
rationals).  The fractional part `q - ⌊q⌋` equals `rnum / q.den`, so the
comparisons with one half are written on integers, which also keeps the
function kernel-evaluable. -/
def roundHalfEven (q : ℚ) : Int :=
  let f := q.floor
  let rnum := q.num - f * q.den
  if 2 * rnum < (q.den : Int) then f
  else if (q.den : Int) < 2 * rnum then f + 1
  else if f % 2 == 0 then f else f + 1

/-- Python's `f"{q:,.0f}"` for the (never negative) average view count. -/
def fmtViews (q : ℚ) : String := commaGroup (roundHalfEven q).toNat

/-! ### Analyzer data model (`content_strategy_agent.py`) -/

/-- `VideoData`: one viral-video record.  `views` is a natural number (the
data model requires a non-negative count); optional fields are `Option`. -/
structure VideoData where
  title : String
  description : Option String
  views : Nat
  publishedAt : String
  channel : Option String
deriving DecidableEq

/-- A hook-pattern entry as the Analyzer emits it: the Python dict
`{"type": ..., "example": ...}` (both keys always present). -/
structure HookPattern where
  ptype : String
  pexample : String
deriving DecidableEq

/-- `ContentAnalysisResult`. -/
structure ContentAnalysisResult where
  hook_patterns : List HookPattern
  format_trends : List String
  engagement_tactics : List String
  content_themes : List String
  summary : String
deriving DecidableEq

/-- Python's `o and f(o)` truthiness test for an optional string: `None`
and `""` are falsy. -/
def pyAndOpt (o : Option String) (f : String → Bool) : Bool :=
  match o with
  | none => false
  | some s => if s == "" then false else f s

/-- Python's `s.endswith(suffix)`. -/
def pyEndsWith (suffix s : String) : Bool :=
  isPrefixL suffix.toList.reverse s.toList.reverse

/-! ### Analyzer heuristics -/

/-- `v.title.endswith('?') or (v.description and '?' in
v.description.split('.')[0])`. -/
def question_pred (v : VideoData) : Bool :=
  pyEndsWith "?" v.title ||
    pyAndOpt v.description (fun d => pyIn "?" ((splitOnS "." d).headD ""))

def shock_words : List String := ["wrong", "mistake", "shocking", "never", "secret"]

/-- `any(word in v.title.lower() for word in shock_words)`. -/
def shock_pred (v : VideoData) : Bool :=
  shock_words.any (fun w => pyIn w (pyLower v.title))

/-- `any(str(i) in v.title for i in range(1, 11))`: one of the decimal
substrings "1" … "10" occurs anywhere in the title. -/
def number_pred (v : VideoData) : Bool :=
  (List.range' 1 10).any (fun i => pyIn (natToDec i) v.title)

/-- `"I" in v.title.split() or (v.description and "I" in
v.description.split()[:5])`. -/
def story_pred (v : VideoData) : Bool :=
  (pyWords v.title).contains "I" ||
    pyAndOpt v.description (fun d => ((pyWords d).take 5).contains "I")

/-- `_analyze_hooks`: for each of the four classes, when at least one video
matches, emit the class with the first matching video's title as example. -/
def analyze_hooks (videos : List VideoData) : List HookPattern :=
  (match videos.filter question_pred with
   | [] => []
   | v :: _ => [⟨"question-based", v.title⟩]) ++
  (match videos.filter shock_pred with
   | [] => []
   | v :: _ => [⟨"shock-based", v.title⟩]) ++
  (match videos.filter number_pred with
   | [] => []
   | v :: _ => [⟨"number-based", v.title⟩]) ++
  (match videos.filter story_pred with
   | [] => []
   | v :: _ => [⟨"personal-story", v.title⟩])

/-- `_analyze_format`: three conditional trends, then two constant trends
always appended. -/
def analyze_format (videos : List VideoData) : List String :=
  (if videos.any (fun v => v.title.toList.any Char.isDigit) then
    ["List-based format (e.g., '5 tips', '3 mistakes')"] else []) ++
  (if videos.any (fun v =>
      pyIn "how to" (pyLower v.title) ||
        pyAndOpt v.description (fun d => pyIn "how to" (pyLower d))) then
    ["Tutorial/How-to format with step-by-step instructions"] else []) ++
  (if videos.any (fun v =>
      (pyIn "before" (pyLower v.title) && pyIn "after" (pyLower v.title)) ||
        pyAndOpt v.description
          (fun d => pyIn "before" (pyLower d) && pyIn "after" (pyLower d))) then
    ["Before/After transformation format"] else []) ++
  ["Hook (0-3s) → Problem/Pain Point (3-8s) → Solution/Value (8-20s) → CTA (last 5s)",
   "Fast-paced editing with text overlays and background music"]

def cta_words : List String := ["follow", "subscribe", "like", "comment", "share"]

/-- `_analyze_engagement`: two conditional tactics, then three constant
tactics always appended. -/
def analyze_engagement (videos : List VideoData) : List String :=
  (if videos.any (fun v => pyIn "?" v.title || pyAndOpt v.description (fun d => pyIn "?" d)) then
    ["Direct questions to viewers to encourage comments"] else []) ++
  (if videos.any (fun v =>
      cta_words.any (fun w => pyAndOpt v.description (fun d => pyIn w (pyLower d)))) then
    ["Explicit calls-to-action (follow, like, comment)"] else []) ++
  ["Open loops (creating curiosity gaps that keep viewers watching)",
   "Relatable scenarios that prompt viewers to tag friends",
   "Controversial or counterintuitive statements to drive discussion"]

/-- `_analyze_themes`: three conditional themes, then two constant themes
always appended. -/
def analyze_themes (videos : List VideoData) : List String :=
  (if videos.any (fun v =>
      pyIn "habit" (pyLower v.title) || pyIn "productivity" (pyLower v.title) ||
        pyAndOpt v.description
          (fun d => pyIn "habit" (pyLower d) || pyIn "productivity" (pyLower d))) then
    ["Personal productivity and habit formation"] else []) ++
  (if videos.any (fun v =>
      pyIn "tech" (pyLower v.title) || pyIn "phone" (pyLower v.title) ||
        pyAndOpt v.description
          (fun d => pyIn "tech" (pyLower d) || pyIn "phone" (pyLower d))) then
    ["Technology tips and gadget hacks"] else []) ++
  (if videos.any (fun v =>
      pyIn "health" (pyLower v.title) || pyIn "diet" (pyLower v.title) ||
        pyAndOpt v.description
          (fun d => pyIn "health" (pyLower d) || pyIn "diet" (pyLower d))) then
    ["Health, nutrition, and wellness advice"] else []) ++
  ["Life hacks and everyday problem-solving",
   "Behind-the-scenes or 'day in the life' content"]

/-- `_generate_summary`: one sentence naming the average view count, the
hook types, the first format trend, the first two engagement tactics and
the first two themes; each clause omitted when its list is empty. -/
def generate_summary (videos : List VideoData) (hook_patterns : List HookPattern)
    (format_trends engagement_tactics content_themes : List String) : String :=
  let avg : ℚ :=
    if videos.isEmpty then 0
    else ((videos.map VideoData.views).sum : ℚ) / (videos.length : ℚ)
  let s0 := "The analyzed videos (averaging " ++ fmtViews avg ++ " views) typically use "
  let s1 :=
    if hook_patterns.isEmpty then s0
    else
      let hook_types := hook_patterns.map HookPattern.ptype
      s0 ++ (if hook_types.length > 1 then
               String.intercalate ", " hook_types.dropLast ++ " and " ++ hook_types.getLastD ""
             else hook_types.headD "") ++ " hooks, "
  let s2 :=
    if format_trends.isEmpty then s1
    else s1 ++ "with a structure that typically follows " ++
      pyLower (format_trends.headD "") ++ ". "
  let s3 :=
    if engagement_tactics.isEmpty then s2
    else s2 ++ "Successful videos employ " ++ pyLower (engagement_tactics.headD "") ++
      " and " ++
      (if engagement_tactics.length > 1 then pyLower (engagement_tactics.getD 1 "") else "") ++
      " to drive viewer interaction. "
  if content_themes.isEmpty then s3
  else s3 ++ "The most popular content focuses on " ++ pyLower (content_themes.headD "") ++
    (if content_themes.length > 1 then " and " ++ pyLower (content_themes.getD 1 "") ++ "."
     else ".")

/-- The Analyzer's heuristic path (`analyze_videos`' fallback branch): the
four analyses and the summary built from their results.  Total by
construction: no operation of the Python path can raise on well-formed
records. -/
def analyze_videos_fallback (videos : List VideoData) : ContentAnalysisResult :=
  let hook_patterns := analyze_hooks videos
  let format_trends := analyze_format videos
  let engagement_tactics := analyze_engagement videos
  let content_themes := analyze_themes videos
  ⟨hook_patterns, format_trends, engagement_tactics, content_themes,
   generate_summary videos hook_patterns format_trends engagement_tactics content_themes⟩

/-! ### Scriptwriter data model (`content_scriptwriter_agent.py`) -/

/-- A caller-supplied hook-pattern dict (`Dict[str, str]`): the keys
`"type"` and `"example"` may each be missing.  `h["type"]` on a missing
key raises (`none` in the embedding); `h.get("example", "")` never does. -/
structure HookDict where
  tyKey : Option String
  exKey : Option String
deriving DecidableEq

/-- `ScriptRequest`. -/
structure ScriptRequest where
  hook_patterns : List HookDict
  format_trends : List String
  engagement_tactics : List String
  content_themes : List String
  summary : String
  target_length : Nat := 60
  platform : String := "all"
  niche_insights : List (String × List String) := []
deriving DecidableEq

/-- `ScriptResponse`. -/
structure ScriptResponse where
  title : String
  script : String
  hook_type : String
  estimated_duration : Nat
  theme : String
  cta : String
  notes : List String
deriving DecidableEq

/-! ### Scriptwriter fallback tables -/

def hook_templates_shock : List String :=
  ["You've been [action] wrong this whole time.",
   "This is the biggest mistake people make when [action].",
   "I can't believe I didn't know this [topic] secret sooner.",
   "Stop [action] immediately if you're doing this."]

def hook_templates_question : List String :=
  ["What if I told you [surprising claim]?",
   "Ever wondered why [intriguing question]?",
   "Do you make this common [topic] mistake?",
   "Want to know the real reason [curious situation]?"]

def hook_templates_number : List String :=
  ["3 [topic] hacks that changed my life.",
   "The #1 reason your [topic] isn't working.",
   "5 seconds that will change how you [action].",
   "These 3 [topic] tips saved me hours every day."]

def hook_templates_story : List String :=
  ["I tried [action] for 30 days and here's what happened.",
   "My [topic] routine was completely wrong until I discovered this.",
   "I was shocked when I learned this [topic] secret.",
   "Let me show you how I [action] to get these results."]

/-- `self.hook_templates.get(t, self.hook_templates["shock-based"])`. -/
def hook_templates_get (t : String) : List String :=
  if t == "shock-based" then hook_templates_shock
  else if t == "question-based" then hook_templates_question
  else if t == "number-based" then hook_templates_number
  else if t == "personal-story" then hook_templates_story
  else hook_templates_shock

def cta_templates_tiktok : List String :=
  ["Hit that follow button if you want more [topic] tips like this.",
   "Comment '[phrase]' if you're going to try this.",
   "Stitch this with your results!",
   "Save this for later when you need it!"]

def cta_templates_youtube : List String :=
  ["Subscribe for more [topic] hacks that actually work.",
   "Let me know in the comments if this helped you.",
   "Check the link in my bio for the full tutorial.",
   "Hit the bell so you don't miss part 2!"]

def cta_templates_instagram : List String :=
  ["Save this to your collection for when you need it.",
   "Tag someone who needs to see this [topic] hack.",
   "DM me your before and after if you try this!",
   "Share this with someone who's been struggling with [topic]."]

def cta_templates_all : List String :=
  ["Follow for more [topic] tips that nobody talks about.",
   "Comment if you're going to try this today.",
   "Like and save this for later!",
   "Let me know your results in the comments!"]

/-- `self.cta_templates.get(platform.lower(), self.cta_templates["all"])`. -/
def cta_templates_get (p : String) : List String :=
  if p == "tiktok" then cta_templates_tiktok
  else if p == "youtube_shorts" then cta_templates_youtube
  else if p == "instagram_reels" then cta_templates_instagram
  else if p == "all" then cta_templates_all
  else cta_templates_all

/-! ### Scriptwriter heuristics -/

/-- `_get_action_from_theme`: keyword-routed action phrase; the matched
bucket samples uniformly from its three candidates, the generic bucket is
constant. -/
def get_action_from_theme (theme : String) (r : Rnd) : String × Rnd :=
  let tl := pyLower theme
  if pyIn "productivity" tl || pyIn "habit" tl || pyIn "time management" tl then
    pyChoice r ["planning your day", "setting priorities", "managing your time"] ""
  else if pyIn "tech" tl || pyIn "phone" tl then
    pyChoice r ["charging your phone", "using your apps", "backing up your data"] ""
  else if pyIn "health" tl || pyIn "diet" tl || pyIn "nutrition" tl then
    pyChoice r ["meal prepping", "counting calories", "planning your diet"] ""
  else if pyIn "life hack" tl || pyIn "problem-solving" tl then
    pyChoice r ["organizing your space", "saving money", "simplifying your life"] ""
  else ("doing this", r)

/-- `_select_hook`, heuristic path (the GPT call returned `None`).  Returns
`((hook type, hook text), rnd)`; `none` models the raised exception:
`h["type"]` on a pattern without the key (already in the prompt
construction), or `theme.split()[0]` on a theme with no words. -/
def select_hook (patterns : List HookDict) (theme : String) (r : Rnd) :
    Option ((String × String) × Rnd) :=
  if patterns.all (fun p => p.tyKey.isSome) then
    match patterns with
    | [] =>
      match firstWord theme with
      | none => none
      | some w =>
        some (("shock-based", "You've been approaching " ++ pyLower w ++ " all wrong."), r)
    | p0 :: ps =>
      let ch := pyChoice r (p0 :: ps) p0
      match ch.1.tyKey with
      | none => none
      | some sel =>
        let ct := pyChoice ch.2 (hook_templates_get sel) ""
        match firstWord theme with
        | none => none
        | some w =>
          let topic := pyLower w
          let h1 := pyReplace ct.1 "[topic]" topic
          let act := get_action_from_theme theme ct.2
          let h2 := pyReplace h1 "[action]" act.1
          let h3 := pyReplace h2 "[surprising claim]"
            ("one simple " ++ topic ++ " hack could save you hours")
          let h4 := pyReplace h3 "[intriguing question]"
            ("most people get " ++ topic ++ " completely wrong")
          let h5 := pyReplace h4 "[curious situation]"
            ("your " ++ topic ++ " isn't improving")
          let h6 := pyReplace h5 "[phrase]" "I'll try this"
          some ((sel, h6), act.2)
  else none

/-- `_select_cta`, heuristic path: per-platform template table, uniform
pick, `[topic]`/`[phrase]` substitution.  The engagement tactics only feed
the (failed) GPT prompt.  `none` models the `theme.split()[0]`
`IndexError` on a theme with no words. -/
def select_cta (engagement_tactics : List String) (platform theme : String) (r : Rnd) :
    Option (String × Rnd) :=
  let _unused := engagement_tactics
  let ct := pyChoice r (cta_templates_get (pyLower platform)) ""
  match firstWord theme with
  | none => none
  | some w =>
    some (pyReplace (pyReplace ct.1 "[topic]" (pyLower w)) "[phrase]" "I'll try this", ct.2)

def body_productivity : String :=
  "Most people waste hours every day on tasks that don't move the needle. [show frustrated person]" ++
  "\n\n" ++
  "Instead, try time blocking: [cut to phone calendar] First, identify your top 3 priorities for tomorrow. [show list] Then, schedule specific time blocks for each one. [show calendar] The key is to work in 25-minute focused sessions with 5-minute breaks. [show timer]"

def body_tech : String :=
  "Your phone battery dying mid-day is not just annoying—it's preventable. [show phone at 1%]" ++
  "\n\n" ++
  "Here's what actually kills your battery: [cut to settings] Background apps constantly refreshing. [show settings menu] Go to Settings → General → Background App Refresh and turn it off for apps you don't need instant updates from. [show toggling off] This one change can give you 2-3 extra hours of battery life. [show battery percentage increasing]"

def body_health : String :=
  "That afternoon energy crash isn't normal, and it's probably because of what you're eating for lunch. [show tired person at desk]" ++
  "\n\n" ++
  "Try this instead: [cut to meal prep] Combine protein, healthy fats, and complex carbs in every meal. [show food items] For example: grilled chicken, avocado, and sweet potato. [show meal] This balanced combo prevents blood sugar spikes and keeps your energy stable all day. [show energetic person working]"

def body_generic : String :=
  "We all struggle with having too much to do and too little time. [show overwhelmed person]" ++
  "\n\n" ++
  "Here's a simple system that changed everything for me: [cut to notebook] The 1-3-5 Rule. Each day, commit to accomplishing: 1 big thing, 3 medium things, and 5 small things. [show list] That's it. This prevents overwhelm while still ensuring progress on what matters. [show completed list]"

/-- `_generate_script_body`, heuristic path: keyword-routed fixed
problem/solution pair; body = hook, problem, solution joined by blank
lines.  The format-trend list only feeds the (failed) GPT prompt. -/
def generate_script_body (hook theme : String) (format_trends : List String) : String :=
  let tl := pyLower theme
  let _unused := format_trends
  if pyIn "productivity" tl || pyIn "habit" tl || pyIn "time management" tl then
    hook ++ "\n\n" ++ body_productivity
  else if pyIn "tech" tl || pyIn "phone" tl then
    hook ++ "\n\n" ++ body_tech
  else if pyIn "health" tl || pyIn "diet" tl || pyIn "nutrition" tl then
    hook ++ "\n\n" ++ body_health
  else
    hook ++ "\n\n" ++ body_generic

/-- The theme selection at the top of `generate_script`:
`random.choice(request.content_themes) if request.content_themes else
"productivity hacks"`. -/
def selectedTheme (req : ScriptRequest) (r : Rnd) : String × Rnd :=
  match req.content_themes with
  | [] => ("productivity hacks", r)
  | t0 :: ts => pyChoice r (t0 :: ts) t0

/-- `generate_script`, heuristic path: theme, hook, body, CTA, assembly,
title truncation, duration estimate and notes.  `none` models an uncaught
exception inside the path. -/
def generate_script (req : ScriptRequest) (r : Rnd) : Option ScriptResponse :=
  let tm := selectedTheme req r
  match select_hook req.hook_patterns tm.1 tm.2 with
  | none => none
  | some (hs, r2) =>
    let script_body := generate_script_body hs.2 tm.1 req.format_trends
    match select_cta req.engagement_tactics req.platform tm.1 r2 with
    | none => none
    | some (cta, _) =>
      let full_script := script_body ++ "\n\n" ++ cta
      let title := if hs.2.length > 60 then pyTake hs.2 57 ++ "..." else hs.2
      let word_count := (wordsL full_script.toList).length
      let estimated_duration := max (min (word_count * 2 / 5) 60) 15
      let notes :=
        ["Estimated duration: " ++ natToDec estimated_duration ++ " seconds",
         "Hook type: " ++ hs.1,
         "Primary theme: " ++ tm.1,
         "Target platform: " ++ req.platform] ++
        (if pyLower req.platform == "tiktok" then
          ["Optimize for mobile vertical format (9:16)"]
         else if pyLower req.platform == "youtube_shorts" then
          ["Include subscribe reminder overlay in final seconds"]
         else if pyLower req.platform == "instagram_reels" then
          ["Consider adding trending sound/music for additional reach"]
         else [])
      some ⟨title, full_script, hs.1, estimated_duration, tm.1, cta, notes⟩

/-! ### VisualPlanner data model (`visual_content_planner_agent.py`) -/

/-- `SceneData`. -/
structure SceneData where
  timestamp : String
  script_segment : String
  stock_footage : List String
  text_overlay : Option String
  visual_effects : List String
  transition : String
deriving DecidableEq

/-- `VisualPlanRequest` (defaults as in the pydantic model). -/
structure VisualPlanRequest where
  script : String
  hook : Option String := none
  cta : Option String := none
  niche : Option String := none
  tone : String := "engaging"
  platform : String := "TikTok"
deriving DecidableEq

/-- `VisualPlanResponse`. -/
structure VisualPlanResponse where
  title : String
  scenes : List SceneData
  total_duration : String
  music_recommendation : String
  voiceover_style : String
  stock_footage_platforms : List String
  editing_tips : List String
deriving DecidableEq

/-! ### VisualPlanner fixed tables -/

def transitions : List String :=
  ["Cut", "Fade", "Dissolve", "Wipe", "Zoom In", "Zoom Out", "Slide Left",
   "Slide Right", "Whip Pan", "Split Screen"]

def tiktok_effects : List String :=
  ["Slow Motion", "Text Animation", "Green Screen", "Duet Effect", "Background Blur",
   "Color Filter", "Time Warp Scan", "Sticker Overlay", "Glitch Effect", "Tracking Text"]

def instagram_effects : List String :=
  ["Boomerang", "Superzoom", "Face Filters", "GIF Stickers", "Color Filter",
   "Drawing Tools", "3D Text", "AR Effects", "Depth Effect", "Slow Motion"]

def youtube_effects : List String :=
  ["Lower Thirds", "Closed Captions", "End Screen Elements", "Pop-up Cards", "Split Screen",
   "Screen-in-Screen", "Zoom Emphasis", "Motion Graphics", "Cross Fade", "Color Grading"]

/-- `self.visual_effects.get(platform, self.visual_effects["TikTok"])`. -/
def visual_effects_get (platform : String) : List String :=
  if platform == "TikTok" then tiktok_effects
  else if platform == "Instagram" then instagram_effects
  else if platform == "YouTube" then youtube_effects
  else tiktok_effects

/-- `self.stock_footage_platforms`. -/
def stock_footage_platforms_tbl : List String :=
  ["Pexels", "Pixabay", "Unsplash", "Storyblocks", "Mixkit", "Videvo", "Coverr"]

/-- The ten-entry `niche_footage` table of `_suggest_stock_footage`, in
source (insertion) order. -/
def niche_footage : List (String × List String) :=
  [("productivity", ["person working at desk", "calendar planning", "time management app"]),
   ("tech", ["smartphone usage", "app interface", "tech gadget closeup"]),
   ("health", ["healthy meal prep", "workout sequence", "meditation scene"]),
   ("finance", ["money saving visualization", "investment chart", "budgeting app"]),
   ("home", ["home organization", "cleaning transformation", "interior design"]),
   ("beauty", ["skincare routine", "makeup application", "before/after transition"]),
   ("fashion", ["outfit styling", "fabric closeup", "accessory details"]),
   ("travel", ["destination views", "packing process", "travel hacks"]),
   ("cooking", ["ingredient preparation", "cooking technique", "final dish reveal"]),
   ("fitness", ["workout demonstration", "before/after body transformation", "gym equipment"])]

def default_footage : List String :=
  ["person speaking to camera", "relevant B-roll footage", "text animation on solid background"]

def niche_music : List (String × String) :=
  [("productivity", "Upbeat lo-fi with light percussion"),
   ("tech", "Modern electronic with tech sounds"),
   ("health", "Calm ambient with nature elements"),
   ("finance", "Professional corporate with positive progression"),
   ("home", "Cozy acoustic with warm tones"),
   ("beauty", "Stylish pop with fashionable beats"),
   ("fashion", "Trendy electronic with runway vibes"),
   ("travel", "Exotic instrumental with cultural elements"),
   ("cooking", "Light jazz with kitchen-friendly rhythm"),
   ("fitness", "High-energy EDM with strong beat")]

def tone_adjectives : List (String × String) :=
  [("energetic", "high-energy"), ("calm", "soothing"), ("professional", "polished"),
   ("fun", "playful"), ("emotional", "moving"), ("informative", "neutral"),
   ("inspiring", "uplifting"), ("humorous", "quirky")]

def niche_voice : List (String × String) :=
  [("productivity", "Clear and motivational"),
   ("tech", "Knowledgeable and straightforward"),
   ("health", "Calming and authoritative"),
   ("finance", "Professional and trustworthy"),
   ("home", "Friendly and approachable"),
   ("beauty", "Enthusiastic and detailed"),
   ("fashion", "Stylish and confident"),
   ("travel", "Adventurous and descriptive"),
   ("cooking", "Warm and instructional"),
   ("fitness", "Energetic and encouraging")]

def tone_modifiers : List (String × String) :=
  [("energetic", "with high energy"), ("calm", "with a soothing tone"),
   ("professional", "with expert delivery"), ("fun", "with playful inflection"),
   ("emotional", "with authentic feeling"), ("informative", "with clear articulation"),
   ("inspiring", "with motivational emphasis"), ("humorous", "with comedic timing")]

def tiktok_tips : List String :=
  ["Keep transitions snappy - no longer than 0.3 seconds",
   "Use trending sounds/music to increase discoverability",
   "Add closed captions for better engagement (80% watch with sound off)",
   "Maintain high-energy pacing throughout",
   "Include text overlays for key points",
   "Use trending effects when they match your content",
   "Front-load the hook in the first 1-2 seconds",
   "End with a strong call-to-action"]

def instagram_tips : List String :=
  ["Maintain 9:16 aspect ratio for optimal display",
   "Use Instagram's built-in effects for better algorithmic performance",
   "Include a mix of on-screen text and voiceover",
   "Tag relevant accounts/products in the video",
   "Use Instagram's music library for better reach",
   "Create shareable moments for Stories reshares",
   "Design colorful and vibrant visuals",
   "End with a question to encourage comments"]

def youtube_tips : List String :=
  ["Include a clear hook within the first 3 seconds",
   "Add a branded subscribe animation at the end",
   "Use YouTube's end screen elements for the last 5-10 seconds",
   "Optimize brightness and contrast for mobile viewing",
   "Include closed captions for accessibility",
   "Use chapters/timestamps in video description",
   "Create a consistent color grade throughout",
   "Include subtle background music at 10-15% volume under narration"]

def default_tips : List String :=
  ["Keep editing pace fast with cuts every 1-2 seconds",
   "Add text overlays for all key points",
   "Use subtle zoom effects to maintain visual interest",
   "Include motion graphics for statistics or numbers",
   "Ensure clear audio quality for voiceover"]

/-- `platform_tips.get(platform, default_tips)`. -/
def platform_tips_get (platform : String) : List String :=
  if platform == "TikTok" then tiktok_tips
  else if platform == "Instagram" then instagram_tips
  else if platform == "YouTube" then youtube_tips
  else default_tips

/-! ### VisualPlanner per-scene heuristics -/

/-- `_suggest_stock_footage`: niche-table first match (fixed three
suggestions, an optional keyword extra, capped at three); otherwise
keyword-sampled suggestions padded with the generic defaults. -/
def suggest_stock_footage (segment niche : String) (r : Rnd) : List String × Rnd :=
  let keywords := ((pyWords segment).filter (fun w => w.length > 3)).map pyLower
  match firstKeyMatch niche_footage (pyLower niche) with
  | some e =>
    if keywords.isEmpty then (e.2.take 3, r)
    else
      let ch := pyChoice r keywords ""
      ((e.2 ++ [ch.1 ++ " visual"]).take 3, ch.2)
  | none =>
    if keywords.isEmpty then (default_footage, r)
    else
      let sm := pySample keywords (min 3 keywords.length) r
      let ks := sm.1.map (fun kw => kw ++ " visual")
      (ks ++ default_footage.take (3 - ks.length), sm.2)

/-- `_suggest_text_overlay`. -/
def suggest_text_overlay (segment : String) : Option String :=
  if segment.length < 40 then some segment
  else if pyIn "." segment && ((splitOnS "." segment).headD "").length < 40 then
    some ((splitOnS "." segment).headD "")
  else if (pyWords segment).length > 5 then
    some (String.intercalate " " ((pyWords segment).take 5) ++ "...")
  else none

/-- `_suggest_visual_effects`: scene-type preferred subset intersected with
the platform pool (full pool when empty), two sampled without
replacement. -/
def suggest_visual_effects (platform scene_type : String) (r : Rnd) : List String × Rnd :=
  let platform_effects := visual_effects_get platform
  if scene_type == "hook" then
    let hook_effects := ["Text Animation", "Zoom In", "Color Filter", "Motion Graphics"]
    let av0 := hook_effects.filter (fun e => platform_effects.contains e)
    let av := if av0.isEmpty then platform_effects else av0
    pySample av (min 2 av.length) r
  else if scene_type == "cta" then
    let cta_effects := ["Text Animation", "Sticker Overlay", "3D Text", "GIF Stickers"]
    let av0 := cta_effects.filter (fun e => platform_effects.contains e)
    let av := if av0.isEmpty then platform_effects else av0
    pySample av (min 2 av.length) r
  else
    pySample platform_effects (min 2 platform_effects.length) r

/-- `_suggest_music`: first-matching niche bucket (else the generic base),
first-matching tone adjective (else none), capitalized modifier plus
lower-cased base when a modifier matched. -/
def suggest_music (niche tone : String) : String :=
  let music_base :=
    match firstKeyMatch niche_music (pyLower niche) with
    | some e => e.2
    | none => "Trendy background music"
  let tone_modifier :=
    match firstKeyMatch tone_adjectives (pyLower tone) with
    | some e => e.2
    | none => ""
  if tone_modifier != "" then pyCapitalize tone_modifier ++ " " ++ pyLower music_base
  else music_base

/-- `_suggest_voiceover`: same routing; base plus modifier when one
matched. -/
def suggest_voiceover (niche tone : String) : String :=
  let voice_base :=
    match firstKeyMatch niche_voice (pyLower niche) with
    | some e => e.2
    | none => "Engaging and conversational"
  let tone_modifier :=
    match firstKeyMatch tone_modifiers (pyLower tone) with
    | some e => e.2
    | none => ""
  if tone_modifier != "" then voice_base ++ " " ++ tone_modifier
  else voice_base

/-- `_suggest_editing_tips`: up to five tips sampled from the platform's
fixed list. -/
def suggest_editing_tips (platform : String) (r : Rnd) : List String × Rnd :=
  let tips := platform_tips_get platform
  pySample tips (min 5 tips.length) r

/-! ### VisualPlanner scene assembly -/

/-- The content-scene loop of `_create_visual_plan_template`: one scene per
segment, each `d` seconds, the running clock threaded through.  Returns
(scenes, final clock, rnd). -/
def contentScenes (niche platform : String) (d : Nat) :
    List String → Nat → Rnd → List SceneData × Nat × Rnd
  | [], t, r => ([], t, r)
  | seg :: rest, t, r =>
    let fo := suggest_stock_footage seg niche r
    let fx := suggest_visual_effects platform "content" fo.2
    let tr := pyChoice fx.2 transitions "Cut"
    let tail := contentScenes niche platform d rest (t + d) tr.2
    (⟨fmtTime t ++ "-" ++ fmtTime (t + d), seg, fo.1, suggest_text_overlay seg,
      fx.1, tr.1⟩ :: tail.1,
     tail.2)

/-- `request.script or ""`. -/
def tmplScript (req : VisualPlanRequest) : String := pyOrS req.script ""

/-- `request.hook or (script.split("\n\n")[0] if "\n\n" in script else
script.split(".")[0])`. -/
def tmplHook (req : VisualPlanRequest) : String :=
  pyOrOpt req.hook
    (if pyIn "\n\n" (tmplScript req) then (splitOnS "\n\n" (tmplScript req)).headD ""
     else (splitOnS "." (tmplScript req)).headD "")

/-- `request.cta or "Follow for more content like this!"`. -/
def tmplCta (req : VisualPlanRequest) : String :=
  pyOrOpt req.cta "Follow for more content like this!"

/-- `request.niche or "lifestyle"`. -/
def tmplNiche (req : VisualPlanRequest) : String := pyOrOpt req.niche "lifestyle"

/-- `hook if len(hook) < 60 else hook[:57] + "..."`. -/
def tmplTitle (req : VisualPlanRequest) : String :=
  if (tmplHook req).length < 60 then tmplHook req else pyTake (tmplHook req) 57 ++ "..."

/-- `script.split("\n\n") if "\n\n" in script else script.split(". ")`. -/
def tmplSegs (req : VisualPlanRequest) : List String :=
  if pyIn "\n\n" (tmplScript req) then splitOnS "\n\n" (tmplScript req)
  else splitOnS ". " (tmplScript req)

/-- `segments[1:-1] if len(segments) > 2 else segments`: the segments the
content-scene loop runs over. -/
def tmplMid (req : VisualPlanRequest) : List String :=
  if (tmplSegs req).length > 2 then ((tmplSegs req).drop 1).dropLast else tmplSegs req

/-- `max(3, min(10, 30 // max(1, len(segments) - 2)))`, computed on Python
ints (the subtraction can go negative). -/
def tmplD (req : VisualPlanRequest) : Nat :=
  (max 3 (min 10 (30 / (max 1 (((tmplSegs req).length : Int) - 2))))).toNat

/-- The hook scene (forced `0:00-0:05`). -/
def tmplHookScene (req : VisualPlanRequest) (r : Rnd) : SceneData × Rnd :=
  let fo := suggest_stock_footage (tmplHook req) (tmplNiche req) r
  let fx := suggest_visual_effects req.platform "hook" fo.2
  let tr := pyChoice fx.2 transitions "Cut"
  (⟨"0:00-0:05", tmplHook req, fo.1,
    (if (tmplHook req).length < 40 then some (tmplHook req) else none), fx.1, tr.1⟩,
   tr.2)

/-- The content scenes, started at clock 5 with the stream as the hook
scene left it. -/
def tmplContent (req : VisualPlanRequest) (r : Rnd) : List SceneData × Nat × Rnd :=
  contentScenes (tmplNiche req) req.platform (tmplD req) (tmplMid req) 5 (tmplHookScene req r).2

/-- The CTA scene (five seconds from clock `t`, always "Fade"). -/
def tmplCtaScene (req : VisualPlanRequest) (t : Nat) (r : Rnd) : SceneData × Rnd :=
  let fo := suggest_stock_footage "creator speaking directly to camera" (tmplNiche req) r
  let fx := suggest_visual_effects req.platform "cta" fo.2
  (⟨fmtTime t ++ "-" ++ fmtTime (t + 5), tmplCta req, fo.1,
    (if (tmplCta req).length < 40 then some (tmplCta req) else none), fx.1, "Fade"⟩,
   fx.2)

/-- `_create_visual_plan_template`: the VisualPlanner's heuristic path. -/
def create_visual_plan_template (req : VisualPlanRequest) (r : Rnd) : VisualPlanResponse :=
  let hsc := tmplHookScene req r
  let cs := tmplContent req r
  let afterCta : List SceneData × Nat × Rnd :=
    if tmplCta req == "" then (hsc.1 :: cs.1, cs.2.1, cs.2.2)
    else
      let csc := tmplCtaScene req cs.2.1 cs.2.2
      (hsc.1 :: cs.1 ++ [csc.1], cs.2.1 + 5, csc.2)
  let sfp := pySample stock_footage_platforms_tbl
    (min 4 stock_footage_platforms_tbl.length) afterCta.2.2
  ⟨tmplTitle req, afterCta.1, fmtTime afterCta.2.1,
   suggest_music (tmplNiche req) req.tone,
   suggest_voiceover (tmplNiche req) req.tone,
   sfp.1,
   (suggest_editing_tips req.platform sfp.2).1⟩

/-- `_create_fallback_plan`: the minimal single-scene plan; no operation in
it can raise. -/
def create_fallback_plan (req : VisualPlanRequest) : VisualPlanResponse :=
  ⟨pyOrOpt req.hook "Attention-grabbing hook",
   [⟨"0:00-0:30", pyOrS req.script "",
     ["Person talking to camera", "Relevant B-roll"],
     some "Key message", ["Text Animation"], "Cut"⟩],
   "0:30", "Upbeat background music", "Clear and engaging",
   ["Pexels", "Pixabay"], ["Keep it simple", "Focus on clear audio"]⟩

/-- `create_visual_plan`: try the GPT path; on a graceful GPT failure run
the template path; on any raised exception return the fallback plan.  The
`Except` argument is the outcome of the body of the `try` up to the
template call: `.error` stands for a raised exception, `.ok (some p)` for
a successful GPT plan, `.ok none` for the GPT path's graceful `None`. -/
def create_visual_plan (gpt : Except Unit (Option VisualPlanResponse))
    (req : VisualPlanRequest) (r : Rnd) : VisualPlanResponse :=
  match gpt with
  | .error _ => create_fallback_plan req
  | .ok (some p) => p
  | .ok none => create_visual_plan_template req r

/-! ### Scene contiguity -/

/-- `sceneChainB s scenes` holds when the first scene's timestamp starts at
`s` and every following scene's timestamp starts where the previous one
ends. -/
def sceneChainB (s : String) : List SceneData → Bool
  | [] => true
  | a :: rest => (tsStart a.timestamp == s) && sceneChainB (tsEnd a.timestamp) rest

theorem sceneChainB_nil (s : String) : sceneChainB s [] = true := rfl

theorem sceneChainB_cons (s : String) (a : SceneData) (l : List SceneData) :
    sceneChainB s (a :: l) = ((tsStart a.timestamp == s) && sceneChainB (tsEnd a.timestamp) l) :=
  rfl

def dummyScene : SceneData := ⟨"", "", [], none, [], ""⟩

theorem pyOrOpt_ne (o : Option String) (d : String) (hd : d ≠ "") : pyOrOpt o d ≠ "" := by
  cases o with
  | none => exact hd
  | some s =>
    simp only [pyOrOpt]
    split
    · exact hd
    · next h => exact fun he => h (by rw [he]; rfl)

theorem getLastD_append_singleton {α : Type} (l : List α) (a : α) :
    ∀ d, (l ++ [a]).getLastD d = a := by
  induction l with
  | nil => intro d; rfl
  | cons x xs ih => intro d; rw [List.cons_append, List.getLastD_cons, ih]

/-- The clock after the content-scene loop: start plus `d` per segment. -/
theorem contentScenes_clock (niche platform : String) (d : Nat) (segs : List String) :
    ∀ (t : Nat) (r : Rnd), (contentScenes niche platform d segs t r).2.1 = t + d * segs.length := by
  induction segs with
  | nil => intro t r; simp [contentScenes]
  | cons seg rest ih =>
    intro t r
    simp only [contentScenes, ih, List.length_cons]
    ring

/-- The content scenes chain from `fmtTime t`, handing `fmtTime (t + d*n)`
on to whatever follows them. -/
theorem contentScenes_chain (niche platform : String) (d : Nat) (segs : List String) :
    ∀ (t : Nat) (r : Rnd) (tail : List SceneData),
      sceneChainB (fmtTime t) ((contentScenes niche platform d segs t r).1 ++ tail)
        = sceneChainB (fmtTime (t + d * segs.length)) tail := by
  induction segs with
  | nil => intro t r tail; simp [contentScenes]
  | cons seg rest ih =>
    intro t r tail
    simp only [contentScenes]
    rw [List.cons_append, sceneChainB_cons,
      tsStart_append _ _ (fmtTime_ne_minus t), tsEnd_append _ _ (fmtTime_ne_minus (t + d)),
      beq_self_eq_true, Bool.true_and, ih (t + d), List.length_cons]
    have harith : t + d + d * rest.length = t + d * (rest.length + 1) := by ring
    rw [harith]

/-- C1: for every request and every random stream, the template path's
scene list is contiguous — it starts at "0:00" and every scene's timestamp
start equals the previous scene's timestamp end — and the plan's
`total_duration` equals the last scene's timestamp end. -/
theorem c1_template_scenes_contiguous (req : VisualPlanRequest) (r : Rnd) :
    sceneChainB "0:00" (create_visual_plan_template req r).scenes = true ∧
    (create_visual_plan_template req r).total_duration =
      tsEnd (((create_visual_plan_template req r).scenes.getLastD dummyScene).timestamp) := by
  have hcta : (tmplCta req == "") = false := by
    have h := pyOrOpt_ne req.cta "Follow for more content like this!" (by decide)
    exact beq_eq_false_iff_ne.mpr h
  have hhts : (tmplHookScene req r).1.timestamp = "0:00-0:05" := rfl
  have hcts : ∀ t r', (tmplCtaScene req t r').1.timestamp = fmtTime t ++ "-" ++ fmtTime (t + 5) :=
    fun _ _ => rfl
  simp only [create_visual_plan_template, hcta, Bool.false_eq_true, if_false]
  constructor
  · rw [List.cons_append, sceneChainB_cons, hhts]
    rw [show tsStart "0:00-0:05" = "0:00" from by decide]
    rw [show tsEnd "0:00-0:05" = fmtTime 5 from by decide]
    rw [beq_self_eq_true, Bool.true_and]
    rw [show (tmplContent req r).1 = (contentScenes (tmplNiche req) req.platform (tmplD req)
      (tmplMid req) 5 (tmplHookScene req r).2).1 from rfl]
    rw [contentScenes_chain]
    rw [sceneChainB_cons, sceneChainB_nil, hcts]
    rw [tsStart_append _ _ (fmtTime_ne_minus _)]
    have hclock : (tmplContent req r).2.1 = 5 + tmplD req * (tmplMid req).length :=
      contentScenes_clock _ _ _ _ _ _
    rw [hclock, beq_self_eq_true, Bool.and_true]
  · rw [getLastD_append_singleton, hcts]
    rw [tsEnd_append _ _ (fmtTime_ne_minus _)]

theorem pyOrS_empty (s : String) : pyOrS s "" = s := by
  rw [pyOrS]
  split
  · next h => exact (beq_iff_eq.mp h).symm
  · rfl

/-- C5 (counterexample): on the one-segment script "hello" the template
path does not produce a single scene of total duration "0:05" — the
content-scene loop runs over the whole segment list when it has at most
two entries, and a CTA scene is always appended (the CTA default makes the
`if cta:` guard always true), so the plan has three scenes and ends at
"0:20". -/
theorem c5_counterexample :
    ¬ (((create_visual_plan_template { script := "hello" } rTriv).scenes.length = 1) ∧
       (create_visual_plan_template { script := "hello" } rTriv).total_duration = "0:05") := by
  decide

/-- C5 (amended): a script of exactly one segment (no blank-line separator,
no ". " separator) produces exactly three scenes — the hook scene
"0:00-0:05" carrying the hook text, one ten-second content scene
"0:05-0:15" carrying the whole segment, and the CTA scene "0:15-0:20"
carrying the CTA text with the fixed "Fade" transition — with total
duration "0:20". -/
theorem c5_one_segment_plan (req : VisualPlanRequest) (r : Rnd)
    (h1 : pyIn "\n\n" req.script = false) (h2 : pyIn ". " req.script = false) :
    (create_visual_plan_template req r).scenes.map SceneData.timestamp =
      ["0:00-0:05", "0:05-0:15", "0:15-0:20"] ∧
    (create_visual_plan_template req r).scenes.map SceneData.script_segment =
      [tmplHook req, req.script, tmplCta req] ∧
    ((create_visual_plan_template req r).scenes.getLastD dummyScene).transition = "Fade" ∧
    (create_visual_plan_template req r).total_duration = "0:20" := by
  have hscript : tmplScript req = req.script := pyOrS_empty _
  have hsegs : tmplSegs req = [req.script] := by
    rw [tmplSegs, hscript, if_neg (by simp [h1]), splitOnS, splitOnL_no_match _ _ h2]
    rfl
  have hmid : tmplMid req = [req.script] := by
    rw [tmplMid, hsegs, if_neg (by simp)]
  have hd : tmplD req = 10 := by
    rw [tmplD, hsegs]
    simp only [List.length_singleton]
    decide
  have hcta : (tmplCta req == "") = false :=
    beq_eq_false_iff_ne.mpr (pyOrOpt_ne req.cta "Follow for more content like this!" (by decide))
  have hcontent : tmplContent req r =
      contentScenes (tmplNiche req) req.platform 10 [req.script] 5 (tmplHookScene req r).2 := by
    rw [tmplContent, hmid, hd]
  refine ⟨?_, ?_, ?_, ?_⟩
  · simp only [create_visual_plan_template, hcta, Bool.false_eq_true, if_false, hcontent,
      contentScenes, tmplHookScene, tmplCtaScene, List.cons_append, List.map_cons,
      List.map_append, List.map_nil, List.nil_append]
    decide
  · simp only [create_visual_plan_template, hcta, Bool.false_eq_true, if_false, hcontent,
      contentScenes, tmplHookScene, tmplCtaScene, List.cons_append, List.map_cons,
      List.map_append, List.map_nil, List.nil_append]
  · simp only [create_visual_plan_template, hcta, Bool.false_eq_true, if_false, hcontent,
      contentScenes, List.cons_append, List.nil_append]
    rfl
  · simp only [create_visual_plan_template, hcta, Bool.false_eq_true, if_false, hcontent,
      contentScenes]
    decide

def reqOneSeg : VisualPlanRequest := { script := "Quick tip for you" }

theorem c5_one_segment_plan_witness :
    (pyIn "\n\n" reqOneSeg.script = false ∧ pyIn ". " reqOneSeg.script = false) ∧
    ((create_visual_plan_template reqOneSeg rTriv).scenes.map SceneData.timestamp =
       ["0:00-0:05", "0:05-0:15", "0:15-0:20"] ∧
     (create_visual_plan_template reqOneSeg rTriv).scenes.map SceneData.script_segment =
       [tmplHook reqOneSeg, reqOneSeg.script, tmplCta reqOneSeg] ∧
     ((create_visual_plan_template reqOneSeg rTriv).scenes.getLastD dummyScene).transition =
       "Fade" ∧
     (create_visual_plan_template reqOneSeg rTriv).total_duration = "0:20") :=
  ⟨⟨by decide, by decide⟩, c5_one_segment_plan reqOneSeg rTriv (by decide) (by decide)⟩

/-- C3: when the body of `create_visual_plan`'s `try` raises, the boundary
returns `_create_fallback_plan`'s minimal plan — one scene "0:00-0:30"
carrying the whole script with generic footage and tips, total duration
"0:30" — and, the embedding being a total function, no exception reaches
the caller. -/
theorem c3_exception_fallback (req : VisualPlanRequest) (r : Rnd) :
    create_visual_plan (Except.error ()) req r = create_fallback_plan req ∧
    (create_fallback_plan req).scenes =
      [⟨"0:00-0:30", pyOrS req.script "",
        ["Person talking to camera", "Relevant B-roll"],
        some "Key message", ["Text Animation"], "Cut"⟩] ∧
    (create_fallback_plan req).total_duration = "0:30" :=
  ⟨rfl, rfl, rfl⟩

theorem firstKeyMatch_eq_find {α : Type} (table : List (String × α)) (probe : String) :
    firstKeyMatch table probe = table.find? (fun e => pyIn e.1 probe) := by
  induction table with
  | nil => rfl
  | cons x rest ih =>
    rw [firstKeyMatch]
    cases h : pyIn x.1 probe with
    | true =>
      rw [if_pos rfl]
      exact (List.find?_cons_of_pos rest h).symm
    | false =>
      rw [if_neg (by simp), List.find?_cons_of_neg rest (by simp [h]), ih]

theorem firstKeyMatch_mem {α : Type} (table : List (String × α)) (probe : String)
    (e : String × α) (h : firstKeyMatch table probe = some e) : e ∈ table := by
  induction table with
  | nil => cases h
  | cons x rest ih =>
    rw [firstKeyMatch] at h
    split at h
    · have hx : x = e := Option.some_inj.mp h
      rw [← hx]
      exact List.mem_cons_self x rest
    · exact List.mem_cons_of_mem x (ih h)

/-- The claim's own description of a keyword-routed selection: the
first-matching entry's value, else the given generic default. -/
def specKeywordSelect {α : Type} (table : List (String × α)) (probe : String) (dflt : α) : α :=
  match table.find? (fun e => pyIn e.1 probe) with
  | some e => e.2
  | none => dflt

/-- C9: the music and voiceover selections are deterministic functions of
the (niche, tone) pair — two template runs with any two random streams
agree on them — and each equals the first-matching keyword bucket's base
style with the first-matching tone modifier applied when one matches (the
generic base otherwise). -/
theorem c9_music_voice_deterministic (niche tone : String) :
    (suggest_music niche tone =
      (let base := specKeywordSelect niche_music (pyLower niche) "Trendy background music"
       let m := specKeywordSelect tone_adjectives (pyLower tone) ""
       if m != "" then pyCapitalize m ++ " " ++ pyLower base else base)) ∧
    (suggest_voiceover niche tone =
      (let base := specKeywordSelect niche_voice (pyLower niche) "Engaging and conversational"
       let m := specKeywordSelect tone_modifiers (pyLower tone) ""
       if m != "" then base ++ " " ++ m else base)) ∧
    (∀ (req : VisualPlanRequest) (r r' : Rnd),
      (create_visual_plan_template req r).music_recommendation =
        (create_visual_plan_template req r').music_recommendation ∧
      (create_visual_plan_template req r).voiceover_style =
        (create_visual_plan_template req r').voiceover_style ∧
      (create_visual_plan_template req r).music_recommendation =
        suggest_music (tmplNiche req) req.tone ∧
      (create_visual_plan_template req r).voiceover_style =
        suggest_voiceover (tmplNiche req) req.tone) := by
  refine ⟨?_, ?_, ?_⟩
  · cases hm : List.find? (fun e => pyIn e.1 (pyLower niche)) niche_music <;>
      cases ht : List.find? (fun e => pyIn e.1 (pyLower tone)) tone_adjectives <;>
      simp [suggest_music, specKeywordSelect, firstKeyMatch_eq_find, hm, ht]
  · cases hm : List.find? (fun e => pyIn e.1 (pyLower niche)) niche_voice <;>
      cases ht : List.find? (fun e => pyIn e.1 (pyLower tone)) tone_modifiers <;>
      simp [suggest_voiceover, specKeywordSelect, firstKeyMatch_eq_find, hm, ht] <;>
      (try (split <;> rfl))
  · intro req r r'
    exact ⟨rfl, rfl, rfl, rfl⟩

/-- C10: the stock-footage suggestion always has exactly three entries, and
a niche matching the ten-keyword table yields exactly the matched entry's
fixed three-item list — the keyword-derived extra is always cut by the
three-element cap. -/
theorem c10_stock_footage_three (segment niche : String) (r : Rnd) :
    (suggest_stock_footage segment niche r).1.length = 3 ∧
    (∀ e, firstKeyMatch niche_footage (pyLower niche) = some e →
      (suggest_stock_footage segment niche r).1 = e.2) := by
  have hlen3 : ∀ e ∈ niche_footage, e.2.length = 3 := by decide
  have hdf : default_footage.length = 3 := rfl
  constructor
  · rw [suggest_stock_footage]
    cases h : firstKeyMatch niche_footage (pyLower niche) with
    | some e =>
      have he3 : e.2.length = 3 := hlen3 e (firstKeyMatch_mem _ _ _ h)
      simp only [h]
      split
      · simp only [List.length_take, he3]
        exact min_self 3
      · have htake : (e.2 ++
            [(pyChoice r (((pyWords segment).filter (fun w => w.length > 3)).map pyLower) "").1
              ++ " visual"]).take 3 = e.2 := by
          rw [← he3]
          exact List.take_left _ _
        simp only [htake, he3]
    | none =>
      simp only [h]
      split
      · exact hdf
      · simp only [List.length_append, List.length_map, List.length_take, pySample_length, hdf]
        omega
  · intro e h
    have he3 : e.2.length = 3 := hlen3 e (firstKeyMatch_mem _ _ _ h)
    rw [suggest_stock_footage]
    simp only [h]
    split
    · rw [← he3, List.take_length]
    · rw [← he3]
      exact List.take_left _ _

theorem c10_stock_footage_three_witness :
    (firstKeyMatch niche_footage (pyLower "tech reviews") =
       some ("tech", ["smartphone usage", "app interface", "tech gadget closeup"])) ∧
    ((suggest_stock_footage "shiny new gadget" "tech reviews" rTriv).1.length = 3 ∧
     (suggest_stock_footage "shiny new gadget" "tech reviews" rTriv).1 =
       ["smartphone usage", "app interface", "tech gadget closeup"]) :=
  ⟨by decide,
   ⟨(c10_stock_footage_three "shiny new gadget" "tech reviews" rTriv).1,
    (c10_stock_footage_three "shiny new gadget" "tech reviews" rTriv).2
      ("tech", ["smartphone usage", "app interface", "tech gadget closeup"]) (by decide)⟩⟩

/-- C4 (counterexample): on the empty video list the Analyzer's heuristic
path does not return four empty sequences — the format, engagement and
theme analyses unconditionally append their constant entries, so three of
the four lists are non-empty (and the summary then carries their clauses
too). -/
theorem c4_counterexample :
    ¬ ((analyze_videos_fallback []).format_trends = [] ∧
       (analyze_videos_fallback []).engagement_tactics = [] ∧
       (analyze_videos_fallback []).content_themes = []) := by
  decide

set_option maxRecDepth 8000 in
/-- C4 (amended): on the empty video list the hook-pattern list is empty,
the format/engagement/theme lists hold exactly their constant default
entries (two, three and two), and the summary is the composed sentence
with average views "0", the hook clause suppressed and the other three
clauses present. -/
theorem c4_empty_analysis :
    (analyze_videos_fallback []).hook_patterns = [] ∧
    (analyze_videos_fallback []).format_trends =
      ["Hook (0-3s) → Problem/Pain Point (3-8s) → Solution/Value (8-20s) → CTA (last 5s)",
       "Fast-paced editing with text overlays and background music"] ∧
    (analyze_videos_fallback []).engagement_tactics =
      ["Open loops (creating curiosity gaps that keep viewers watching)",
       "Relatable scenarios that prompt viewers to tag friends",
       "Controversial or counterintuitive statements to drive discussion"] ∧
    (analyze_videos_fallback []).content_themes =
      ["Life hacks and everyday problem-solving",
       "Behind-the-scenes or 'day in the life' content"] ∧
    (analyze_videos_fallback []).summary =
      "The analyzed videos (averaging 0 views) typically use with a structure that typically follows hook (0-3s) → problem/pain point (3-8s) → solution/value (8-20s) → cta (last 5s). Successful videos employ open loops (creating curiosity gaps that keep viewers watching) and relatable scenarios that prompt viewers to tag friends to drive viewer interaction. The most popular content focuses on life hacks and everyday problem-solving and behind-the-scenes or 'day in the life' content." := by
  refine ⟨rfl, rfl, rfl, rfl, ?_⟩
  decide

/-- C6 (amended): the heuristic hook analysis emits a "number-based"
pattern exactly when some video's title contains one of the decimal
SUBSTRINGS "1" … "10" (not a standalone token), and the emitted example is
the first such video's title. -/
theorem c6_number_hook_substring (videos : List VideoData) :
    (analyze_hooks videos).filter (fun p => p.ptype == "number-based") =
      (match videos.filter number_pred with
       | [] => []
       | v :: _ => [⟨"number-based", v.title⟩]) := by
  have e1 : (("question-based" : String) == "number-based") = false := by decide
  have e2 : (("shock-based" : String) == "number-based") = false := by decide
  have e3 : (("personal-story" : String) == "number-based") = false := by decide
  have e4 : (("number-based" : String) == "number-based") = true := by decide
  rw [analyze_hooks]
  rcases h1 : videos.filter question_pred with _ | ⟨v1, l1⟩ <;>
    rcases h2 : videos.filter shock_pred with _ | ⟨v2, l2⟩ <;>
    rcases h3 : videos.filter number_pred with _ | ⟨v3, l3⟩ <;>
    rcases h4 : videos.filter story_pred with _ | ⟨v4, l4⟩ <;>
    simp [h1, h2, h3, h4, e1, e2, e3, e4, List.filter_append, List.filter]

/-- The property the claim (and spec §4.1) actually states: a digit 1–10
present as a STANDALONE whitespace-separated token of the title. -/
def specStandaloneNumberToken (title : String) : Bool :=
  (pyWords title).any (fun w => (List.range' 1 10).any (fun i => w == natToDec i))

/-- C6 (counterexample): the title "2023 recap" contains no standalone
token "1" … "10", yet the hook analysis emits a "number-based" pattern for
it, because the code tests substring containment ("2" occurs inside
"2023"). -/
theorem c6_counterexample :
    ((analyze_hooks [⟨"2023 recap", none, 0, "", none⟩]).filter
        (fun p => p.ptype == "number-based") ≠ []) ∧
    specStandaloneNumberToken "2023 recap" = false :=
  ⟨by decide, by decide⟩

/-! ### Scriptwriter totality lemmas -/

theorem selectedTheme_mem (req : ScriptRequest) (r : Rnd) (h : req.content_themes ≠ []) :
    (selectedTheme req r).1 ∈ req.content_themes := by
  match hc : req.content_themes with
  | [] => exact absurd hc h
  | t0 :: ts =>
    rw [selectedTheme, hc]
    exact pyChoice_mem r (t0 :: ts) t0 (by simp)

theorem selectedTheme_default (req : ScriptRequest) (r : Rnd) (h : req.content_themes = []) :
    (selectedTheme req r).1 = "productivity hacks" := by
  rw [selectedTheme, h]

theorem selectedTheme_words (req : ScriptRequest) (r : Rnd)
    (hth : ∀ th ∈ req.content_themes, wordsL th.toList ≠ []) :
    wordsL ((selectedTheme req r).1).toList ≠ [] := by
  by_cases hc : req.content_themes = []
  · rw [selectedTheme_default req r hc]
    decide
  · exact hth _ (selectedTheme_mem req r hc)

theorem firstWord_of_words (s : String) (h : wordsL s.toList ≠ []) :
    ∃ w, firstWord s = some w := by
  rw [firstWord]
  match hw : wordsL s.toList with
  | [] => exact absurd hw h
  | w :: ws => exact ⟨String.mk w, rfl⟩

theorem select_hook_some (patterns : List HookDict) (theme : String) (r : Rnd)
    (hw : wordsL theme.toList ≠ [])
    (hp : ∀ p ∈ patterns, p.tyKey.isSome = true) :
    ∃ out, select_hook patterns theme r = some out := by
  rw [← Option.isSome_iff_exists]
  have hall : patterns.all (fun p => p.tyKey.isSome) = true := List.all_eq_true.mpr hp
  obtain ⟨w, hfw⟩ := firstWord_of_words theme hw
  rw [select_hook.eq_def, if_pos hall]
  match hc : patterns with
  | [] => simp [hfw]
  | p0 :: ps =>
    have hmem : (pyChoice r (p0 :: ps) p0).1 ∈ p0 :: ps := pyChoice_mem r (p0 :: ps) p0 (by simp)
    have hsome : (pyChoice r (p0 :: ps) p0).1.tyKey.isSome = true := hp _ (hc ▸ hmem)
    obtain ⟨sel, hsel⟩ := Option.isSome_iff_exists.mp hsome
    simp [hsel, hfw]

theorem select_cta_some (tactics : List String) (platform theme : String) (r : Rnd)
    (hw : wordsL theme.toList ≠ []) :
    ∃ out, select_cta tactics platform theme r = some out := by
  obtain ⟨w, hfw⟩ := firstWord_of_words theme hw
  rw [select_cta, hfw]
  exact ⟨_, rfl⟩

theorem duration_ge (n : Nat) : 15 ≤ max (min (n * 2 / 5) 60) 15 := by omega

theorem duration_le (n : Nat) : max (min (n * 2 / 5) 60) 15 ≤ 60 := by omega

theorem title_length_le (h : String) :
    (if h.length > 60 then pyTake h 57 ++ "..." else h).length ≤ 60 := by
  split
  · next hgt =>
    rw [String.length_append]
    have h1 : (pyTake h 57).length = min 57 h.toList.length := by
      rw [pyTake]
      exact List.length_take 57 h.toList
    rw [h1]
    have : min 57 h.toList.length ≤ 57 := Nat.min_le_left _ _
    have h3 : ("..." : String).length = 3 := rfl
    omega
  · next hle => omega

/-- Totality of the Scriptwriter heuristic path under the two conditions a
crash-free run needs: every theme has a word and every supplied hook
pattern carries a "type" key. -/
theorem generate_script_total (req : ScriptRequest) (r : Rnd)
    (hth : ∀ th ∈ req.content_themes, wordsL th.toList ≠ [])
    (hpat : ∀ p ∈ req.hook_patterns, p.tyKey.isSome = true) :
    (generate_script req r).isSome = true := by
  have hw := selectedTheme_words req r hth
  obtain ⟨⟨hk, r2⟩, hH⟩ := select_hook_some req.hook_patterns (selectedTheme req r).1
    (selectedTheme req r).2 hw hpat
  obtain ⟨⟨c, r3⟩, hC⟩ := select_cta_some req.engagement_tactics req.platform
    (selectedTheme req r).1 r2 hw
  simp only [generate_script, hH, hC]
  rfl

/-- C8 (counterexample): a well-formed request whose theme list holds the
empty string makes the Scriptwriter heuristic path raise (`IndexError` on
`theme.split()[0]`) instead of returning: the embedding yields `none`. -/
theorem c8_counterexample :
    generate_script
      { hook_patterns := [], format_trends := [], engagement_tactics := [],
        content_themes := [""], summary := "" } rTriv = none := by
  decide

/-- C8 (amended): the Analyzer heuristic path is total by construction (its
embedding is a plain function), and the Scriptwriter heuristic path
returns normally for every request whose themes each contain at least one
whitespace-separated word and whose hook patterns each carry a "type" key
(in particular for requests with empty theme, hook-pattern, engagement and
format lists). -/
theorem c8_scriptwriter_total (req : ScriptRequest) (r : Rnd)
    (hth : ∀ th ∈ req.content_themes, wordsL th.toList ≠ [])
    (hpat : ∀ p ∈ req.hook_patterns, p.tyKey.isSome = true) :
    (generate_script req r).isSome = true :=
  generate_script_total req r hth hpat

def reqScriptOk : ScriptRequest :=
  { hook_patterns := [⟨some "question-based", some "What if I told you this?"⟩],
    format_trends := ["Hook, insight, CTA"], engagement_tactics := ["Open loops"],
    content_themes := ["daily habits"], summary := "s", platform := "tiktok" }

theorem c8_scriptwriter_total_witness :
    ((∀ th ∈ reqScriptOk.content_themes, wordsL th.toList ≠ []) ∧
     (∀ p ∈ reqScriptOk.hook_patterns, p.tyKey.isSome = true)) ∧
    (generate_script reqScriptOk rTriv).isSome = true :=
  ⟨⟨by decide, by decide⟩,
   c8_scriptwriter_total reqScriptOk rTriv (by decide) (by decide)⟩

/-- C2 (counterexample): an insight-set input whose theme list holds a
whitespace-only string makes the heuristic path raise (`IndexError` on
`theme.split()[0]`) instead of returning a ScriptPlan: the embedding
yields `none`, so the claim's universal statement fails. -/
theorem c2_counterexample :
    generate_script
      { hook_patterns := [], format_trends := [], engagement_tactics := [],
        content_themes := ["   "], summary := "" } rTriv = none := by
  decide

/-- C2 (amended): for every insight-set input whose themes each contain a
word and whose hook patterns each carry a "type" key (the all-empty input
among them), the heuristic path returns a ScriptPlan whose
`estimated_duration` is `word_count(script) * 2 / 5` (the floor of
`word_count / 2.5`) clamped to `[15, 60]` — hence an integer in that range
— and whose title is the hook text when it has at most 60 characters and
its first 57 characters plus an ellipsis otherwise, so the title never
exceeds 60 characters. -/
theorem c2_duration_and_title (req : ScriptRequest) (r : Rnd)
    (hth : ∀ th ∈ req.content_themes, wordsL th.toList ≠ [])
    (hpat : ∀ p ∈ req.hook_patterns, p.tyKey.isSome = true) :
    ∃ resp, generate_script req r = some resp ∧
      resp.estimated_duration =
        max (min ((wordsL resp.script.toList).length * 2 / 5) 60) 15 ∧
      15 ≤ resp.estimated_duration ∧ resp.estimated_duration ≤ 60 ∧
      (∃ hk r2, select_hook req.hook_patterns (selectedTheme req r).1 (selectedTheme req r).2
          = some (hk, r2) ∧
        resp.title = (if hk.2.length > 60 then pyTake hk.2 57 ++ "..." else hk.2)) ∧
      resp.title.length ≤ 60 := by
  have hw := selectedTheme_words req r hth
  obtain ⟨⟨hk, r2⟩, hH⟩ := select_hook_some req.hook_patterns (selectedTheme req r).1
    (selectedTheme req r).2 hw hpat
  obtain ⟨⟨c, r3⟩, hC⟩ := select_cta_some req.engagement_tactics req.platform
    (selectedTheme req r).1 r2 hw
  obtain ⟨resp, hresp⟩ :=
    Option.isSome_iff_exists.mp (generate_script_total req r hth hpat)
  have hresp' := hresp
  simp only [generate_script, hH, hC, Option.some.injEq] at hresp'
  subst hresp'
  exact ⟨_, hresp, rfl, duration_ge _, duration_le _, ⟨hk, r2, hH, rfl⟩, title_length_le hk.2⟩

def reqScriptEmpty : ScriptRequest :=
  { hook_patterns := [], format_trends := [], engagement_tactics := [],
    content_themes := [], summary := "" }

theorem c2_duration_and_title_witness :
    ((∀ th ∈ reqScriptEmpty.content_themes, wordsL th.toList ≠ []) ∧
     (∀ p ∈ reqScriptEmpty.hook_patterns, p.tyKey.isSome = true)) ∧
    (∃ resp, generate_script reqScriptEmpty rTriv = some resp ∧
      resp.estimated_duration =
        max (min ((wordsL resp.script.toList).length * 2 / 5) 60) 15 ∧
      15 ≤ resp.estimated_duration ∧ resp.estimated_duration ≤ 60 ∧
      (∃ hk r2, select_hook reqScriptEmpty.hook_patterns
          (selectedTheme reqScriptEmpty rTriv).1 (selectedTheme reqScriptEmpty rTriv).2
          = some (hk, r2) ∧
        resp.title = (if hk.2.length > 60 then pyTake hk.2 57 ++ "..." else hk.2)) ∧
      resp.title.length ≤ 60) :=
  ⟨⟨by decide, by decide⟩,
   c2_duration_and_title reqScriptEmpty rTriv (by decide) (by decide)⟩

/-- C7: within one request the theme is selected exactly once — a uniform
pick from the supplied list, the constant default on the empty list — and
that same value is the one the hook selection, the body generation and the
CTA selection receive; the response carries it unchanged. -/
theorem c7_theme_selected_once (req : ScriptRequest) (r : Rnd)
    (hth : ∀ th ∈ req.content_themes, wordsL th.toList ≠ [])
    (hpat : ∀ p ∈ req.hook_patterns, p.tyKey.isSome = true) :
    ∃ resp, generate_script req r = some resp ∧
      resp.theme = (selectedTheme req r).1 ∧
      (req.content_themes = [] → resp.theme = "productivity hacks") ∧
      (req.content_themes ≠ [] → resp.theme ∈ req.content_themes) ∧
      (∃ hk r2, select_hook req.hook_patterns resp.theme (selectedTheme req r).2
          = some (hk, r2) ∧
        resp.hook_type = hk.1 ∧
        (∃ c r3, select_cta req.engagement_tactics req.platform resp.theme r2 = some (c, r3) ∧
          resp.cta = c ∧
          resp.script = generate_script_body hk.2 resp.theme req.format_trends ++ "\n\n" ++ c)) := by
  have hw := selectedTheme_words req r hth
  obtain ⟨⟨hk, r2⟩, hH⟩ := select_hook_some req.hook_patterns (selectedTheme req r).1
    (selectedTheme req r).2 hw hpat
  obtain ⟨⟨c, r3⟩, hC⟩ := select_cta_some req.engagement_tactics req.platform
    (selectedTheme req r).1 r2 hw
  obtain ⟨resp, hresp⟩ :=
    Option.isSome_iff_exists.mp (generate_script_total req r hth hpat)
  have hresp' := hresp
  simp only [generate_script, hH, hC, Option.some.injEq] at hresp'
  subst hresp'
  exact ⟨_, hresp, rfl,
    fun he => selectedTheme_default req r he,
    fun hne => selectedTheme_mem req r hne,
    hk, r2, hH, rfl, c, r3, hC, rfl, rfl⟩

def reqScriptThemed : ScriptRequest :=
  { hook_patterns := [], format_trends := [], engagement_tactics := [],
    content_themes := ["fitness tips", "meal prepping"], summary := "s",
    platform := "instagram_reels" }

theorem c7_theme_selected_once_witness :
    ((∀ th ∈ reqScriptThemed.content_themes, wordsL th.toList ≠ []) ∧
     (∀ p ∈ reqScriptThemed.hook_patterns, p.tyKey.isSome = true)) ∧
    (∃ resp, generate_script reqScriptThemed rTriv = some resp ∧
      resp.theme = (selectedTheme reqScriptThemed rTriv).1 ∧
      (reqScriptThemed.content_themes = [] → resp.theme = "productivity hacks") ∧
      (reqScriptThemed.content_themes ≠ [] → resp.theme ∈ reqScriptThemed.content_themes) ∧
      (∃ hk r2, select_hook reqScriptThemed.hook_patterns resp.theme
          (selectedTheme reqScriptThemed rTriv).2 = some (hk, r2) ∧
        resp.hook_type = hk.1 ∧
        (∃ c r3, select_cta reqScriptThemed.engagement_tactics reqScriptThemed.platform
            resp.theme r2 = some (c, r3) ∧
          resp.cta = c ∧
          resp.script = generate_script_body hk.2 resp.theme reqScriptThemed.format_trends
            ++ "\n\n" ++ c))) :=
  ⟨⟨by decide, by decide⟩,
   c7_theme_selected_once reqScriptThemed rTriv (by decide) (by decide)⟩
